import Mathlib

set_option maxHeartbeats 1000000

namespace Gateway

/- Shallow embedding of the project-gateway traffic-control plane.
   f64 values are modelled as exact rationals: every comparison, max/min and
   subtraction the source performs on them is exact in IEEE double for the
   magnitudes involved, so the rational model is faithful.  Time instants
   are rationals (seconds); elapsed time is a subtraction. -/

/- Configuration snapshot, from src/src/config/mod.rs. -/

structure ServerConfig where
  host : String
  port : ℕ
  timeout_seconds : ℕ
deriving DecidableEq

structure MetricsConfig where
  enabled : Bool
  port : ℕ
  path : String
deriving DecidableEq

structure TracingConfig where
  enabled : Bool
  jaeger_endpoint : String
  service_name : String
deriving DecidableEq

structure MirrorConfig where
  enabled : Bool
  base_url : String
  timeout_ms : ℕ
  retry_failed : Bool
  max_retries : ℕ
deriving DecidableEq

structure CanaryRolloutConfig where
  enabled : Bool
  rollout_percentage : ℚ
  step : ℚ
  max_errors : ℚ
  monitor_latency_p99 : Bool
  monitor_memory_cpu : Bool
  trigger_header : String
  success_window_seconds : ℕ
  legacy_gateway_url : String
  webhook_url : String
deriving DecidableEq

structure RouteConfig where
  path : String
  method : String
  legacy_endpoint : String
deriving DecidableEq

structure AppConfig where
  server : ServerConfig
  metrics : MetricsConfig
  tracing : TracingConfig
  mirror : MirrorConfig
  canary_rollout : CanaryRolloutConfig
  routes : List RouteConfig
deriving DecidableEq

/- Config reload, from src/src/config/watcher.rs.  The file-watch callback
   re-runs AppConfig::load; on Ok the whole stored snapshot is replaced in a
   single write, on Err the stored snapshot is left untouched. -/

inductive ConfigError where
  | load_failure (msg : String)
deriving DecidableEq

def apply_reload (current : AppConfig) (loaded : Except ConfigError AppConfig) : AppConfig :=
  match loaded with
  | Except.ok new_config => new_config
  | Except.error _ => current

def get_config (current : AppConfig) : AppConfig :=
  current

def replay_reloads (initial : AppConfig) (events : List (Except ConfigError AppConfig)) : AppConfig :=
  events.foldl apply_reload initial

/- Canary routing decision, from src/src/middleware/canary.rs
   (canary_routing_middleware, lines 23-60).  The random draw
   rand::random::<f64>() * 100.0 lies in [0,100); it is passed in here as r. -/

inductive Backend where
  | rust
  | legacy
deriving DecidableEq

def header_value (headers : List (String × String)) (name : String) : Option String :=
  (headers.find? (fun kv => kv.1 == name)).map (fun kv => kv.2)

/- str::to_lowercase, rendered over the character list (header values are
   ASCII, where the two agree). -/
def lower_string (s : String) : String :=
  String.mk (s.toList.map Char.toLower)

def routing_decision (cfg : CanaryRolloutConfig) (headers : List (String × String)) (r : ℚ) : Backend :=
  if !cfg.enabled then
    Backend.rust
  else
    let hv := header_value headers cfg.trigger_header
    let force_rust := (hv.map (fun v => lower_string v == "rust")).getD false
    let force_legacy := (hv.map (fun v => lower_string v == "legacy")).getD false
    if force_rust then Backend.rust
    else if force_legacy then Backend.legacy
    else if r < cfg.rollout_percentage then Backend.rust
    else Backend.legacy

/- Performance monitor, from src/src/monitoring/mod.rs. -/

structure PerformanceMetrics where
  p99_latency_ms : ℚ
  p95_latency_ms : ℚ
  p50_latency_ms : ℚ
  avg_latency_ms : ℚ
  request_count : ℕ
  error_rate : ℚ
  cpu_usage_percent : ℚ
  memory_usage_mb : ℚ
  timestamp : ℕ
deriving DecidableEq

structure PerformanceBaseline where
  rust_metrics : PerformanceMetrics
  legacy_metrics : PerformanceMetrics
  improvement_factor : ℚ
deriving DecidableEq

structure MonitorState where
  rust_latencies : List ℚ
  legacy_latencies : List ℚ
  rust_errors : ℕ
  legacy_errors : ℕ
  rust_requests : ℕ
  legacy_requests : ℕ
  baseline : Option PerformanceBaseline
deriving DecidableEq

/- PerformanceMonitor::new. -/
def monitor_new : MonitorState :=
  { rust_latencies := [], legacy_latencies := [],
    rust_errors := 0, legacy_errors := 0,
    rust_requests := 0, legacy_requests := 0,
    baseline := none }

/- The push-then-drain step of record_request: push the sample, then drain
   the front down to the last 1000 measurements (drain(0..len-1000)). -/
def push_bounded (l : List ℚ) (x : ℚ) : List ℚ :=
  let pushed := l ++ [x]
  if pushed.length > 1000 then pushed.drop (pushed.length - 1000) else pushed

/- PerformanceMonitor::record_request (lines 52-91).  The match on the
   gateway_type string is rendered as an if-chain with the same arms. -/
def record_request (m : MonitorState) (gateway_type : String) (latency_ms : ℚ) (is_error : Bool) : MonitorState :=
  if gateway_type = "rust" then
    { m with
      rust_latencies := push_bounded m.rust_latencies latency_ms,
      rust_requests := m.rust_requests + 1,
      rust_errors := if is_error then m.rust_errors + 1 else m.rust_errors }
  else if gateway_type = "legacy" then
    { m with
      legacy_latencies := push_bounded m.legacy_latencies latency_ms,
      legacy_requests := m.legacy_requests + 1,
      legacy_errors := if is_error then m.legacy_errors + 1 else m.legacy_errors }
  else m

/- sort_by(partial_cmp) on the cloned window, rendered as insertion sort
   (the model latencies are rationals, on which the order is total). -/
def insertSorted (x : ℚ) : List ℚ → List ℚ
  | [] => [x]
  | y :: ys => if x ≤ y then x :: y :: ys else y :: insertSorted x ys

def sortLatencies : List ℚ → List ℚ
  | [] => []
  | x :: xs => insertSorted x (sortLatencies xs)

/- get_system_metrics returns the mocked pair (15.0 cpu, 128.0 memory). -/
def system_cpu_usage : ℚ := 15
def system_memory_usage : ℚ := 128

/- PerformanceMonitor::calculate_metrics (lines 109-155).  The percentile
   indices ((len as f64) * 0.99) as usize and ((len as f64) * 0.95) as usize
   equal the exact floors len*99/100 and len*95/100 for every window length
   up to the 1000-sample cap (the f64 products are within 1e-10 of the exact
   values, whose distance to the next integer below is 0 or at least 1/100),
   so they are embedded as exact natural-number floors. -/
def calculate_metrics (latencies : List ℚ) (request_count error_count : ℕ) (timestamp : ℕ) : Option PerformanceMetrics :=
  if latencies.isEmpty then none
  else
    let sorted := sortLatencies latencies
    let len := sorted.length
    some {
      p99_latency_ms := sorted.getD (len * 99 / 100) 0,
      p95_latency_ms := sorted.getD (len * 95 / 100) 0,
      p50_latency_ms := sorted.getD (len / 2) 0,
      avg_latency_ms := sorted.sum / (len : ℚ),
      request_count := request_count,
      error_rate := if request_count > 0 then ((error_count : ℚ) / (request_count : ℚ)) * 100 else 0,
      cpu_usage_percent := system_cpu_usage,
      memory_usage_mb := system_memory_usage,
      timestamp := timestamp }

/- PerformanceMonitor::get_current_metrics (lines 93-107). -/
def get_current_metrics (m : MonitorState) (gateway_type : String) (timestamp : ℕ) : Option PerformanceMetrics :=
  if gateway_type = "rust" then
    calculate_metrics m.rust_latencies m.rust_requests m.rust_errors timestamp
  else if gateway_type = "legacy" then
    calculate_metrics m.legacy_latencies m.legacy_requests m.legacy_errors timestamp
  else none

/- PerformanceMonitor::set_baseline (lines 157-180).  The guard tests
   legacy_metrics.p99_latency_ms > 0.0 before dividing by
   rust_metrics.p99_latency_ms. -/
def set_baseline (m : MonitorState) (rust_metrics legacy_metrics : PerformanceMetrics) : MonitorState :=
  let improvement_factor :=
    if legacy_metrics.p99_latency_ms > 0 then
      legacy_metrics.p99_latency_ms / rust_metrics.p99_latency_ms
    else 1
  { m with baseline := some {
      rust_metrics := rust_metrics,
      legacy_metrics := legacy_metrics,
      improvement_factor := improvement_factor } }

/- The spec describes the factor as legacy.p99 / new.p99 with division by
   zero guarded to 1.0.  Modelled from the spec for comparison with
   set_baseline above. -/
def spec_improvement_factor (rust_p99 legacy_p99 : ℚ) : ℚ :=
  if rust_p99 = 0 then 1 else legacy_p99 / rust_p99

/- PerformanceMonitor::validate_performance output (lines 259-270). -/
structure PerformanceValidation where
  latency_improvement_percent : ℚ
  memory_improvement_percent : ℚ
  cpu_improvement_percent : ℚ
  error_rate_rust : ℚ
  error_rate_legacy : ℚ
  meets_latency_target : Bool
  meets_resource_target : Bool
  meets_error_target : Bool
  overall_success : Bool
deriving DecidableEq

/- Gatekeeper, from src/src/gatekeeper/mod.rs.  Instants are rationals in
   seconds; elapsed(last, now) = now - last. -/

structure GatekeeperState where
  last_rollback : Option ℚ
deriving DecidableEq

/- str::starts_with, rendered over the character list. -/
def string_starts_with (s pre : String) : Bool :=
  s.toList.take pre.toList.length == pre.toList

/- Gatekeeper::new starts with no recorded rollback. -/
def gatekeeper_new : GatekeeperState :=
  { last_rollback := none }

/- Gatekeeper::new sets rollback_cooldown to 300 seconds. -/
def rollback_cooldown : ℚ := 300

/- The two format! reasons produced by check_health, abstracted as tags. -/
inductive RollbackReason where
  | errorRateExceeded
  | latencyDegraded
deriving DecidableEq

structure GatekeeperStatus where
  is_healthy : Bool
  current_rollout_percentage : ℚ
  error_rate : ℚ
  latency_degradation_percent : ℚ
  last_check : ℚ
  rollback_triggered : Bool
  rollback_reason : Option RollbackReason
deriving DecidableEq

/- Gatekeeper::check_health (lines 73-138).  The validation argument is the
   result of performance_monitor.validate_performance(), and cfg is the
   canary_rollout section of the current config snapshot. -/
def check_health (cfg : CanaryRolloutConfig) (validation : PerformanceValidation)
    (g : GatekeeperState) (now : ℚ) : GatekeeperStatus :=
  let error_rate := validation.error_rate_rust
  let in_cooldown : Bool :=
    match g.last_rollback with
    | some last => if now - last < rollback_cooldown then true else false
    | none => false
  let checked1 : Bool × Option RollbackReason :=
    if error_rate > cfg.max_errors then (false, some RollbackReason.errorRateExceeded)
    else (true, none)
  let latency_degradation_percent :=
    if validation.latency_improvement_percent < 0 then -validation.latency_improvement_percent
    else 0
  let checked2 : Bool × Option RollbackReason :=
    if latency_degradation_percent > 10 then (false, some RollbackReason.latencyDegraded)
    else checked1
  let final : Bool × Option RollbackReason :=
    if in_cooldown then (true, none) else checked2
  { is_healthy := final.1,
    current_rollout_percentage := cfg.rollout_percentage,
    error_rate := error_rate,
    latency_degradation_percent := latency_degradation_percent,
    last_check := now,
    rollback_triggered := !final.1 && final.2.isSome,
    rollback_reason := final.2 }

/- Externally visible side effects of Gatekeeper::trigger_rollback: the
   from/to percentages that are logged, and whether a webhook POST is
   attempted (send_rollback_alert fires only when webhook_url starts with
   "http"). -/
structure RollbackEffect where
  logged_from : ℚ
  logged_to : ℚ
  webhook_attempted : Bool
deriving DecidableEq

/- Gatekeeper::trigger_rollback (lines 140-168).  It records the rollback
   instant and computes (current - step).max(1.0), but the source then only
   logs "ROLLBACK EXECUTED"; the configuration is returned unchanged because
   the source never writes the reduced percentage back (its comment reads
   "in a real system, this would update the config file"). -/
def trigger_rollback (now : ℚ) (cfg : CanaryRolloutConfig) (g : GatekeeperState) :
    CanaryRolloutConfig × GatekeeperState × RollbackEffect :=
  let rollback_percentage := max (cfg.rollout_percentage - cfg.step) 1
  ( cfg,
    { last_rollback := some now },
    { logged_from := cfg.rollout_percentage,
      logged_to := rollback_percentage,
      webhook_attempted := string_starts_with cfg.webhook_url "http" } )

/- Gatekeeper::force_rollback delegates to trigger_rollback. -/
def force_rollback (now : ℚ) (cfg : CanaryRolloutConfig) (g : GatekeeperState) :
    CanaryRolloutConfig × GatekeeperState × RollbackEffect :=
  trigger_rollback now cfg g

/- Externally visible side effects of Gatekeeper::advance_rollout: the new
   percentage it computes and logs, and which log branch is taken. -/
structure AdvanceEffect where
  logged_from : ℚ
  logged_to : ℚ
  advanced : Bool
deriving DecidableEq

/- Gatekeeper::advance_rollout (lines 222-244).  It computes
   (current + step).min(100.0) and logs, but never writes the new percentage
   back to the configuration (its comment reads "In a real system, this
   would update the configuration"). -/
def advance_rollout (cfg : CanaryRolloutConfig) : CanaryRolloutConfig × AdvanceEffect :=
  let new_percentage := min (cfg.rollout_percentage + cfg.step) 100
  ( cfg,
    { logged_from := cfg.rollout_percentage,
      logged_to := new_percentage,
      advanced := if new_percentage > cfg.rollout_percentage then true else false } )

/- One iteration of the Gatekeeper::start_monitoring loop body
   (lines 47-70): check health, and run trigger_rollback when the guard
   !is_healthy && !rollback_triggered passes and a reason is present. -/
def gatekeeper_tick (cfg : CanaryRolloutConfig) (validation : PerformanceValidation)
    (g : GatekeeperState) (now : ℚ) :
    GatekeeperStatus × CanaryRolloutConfig × GatekeeperState :=
  let status := check_health cfg validation g now
  if !status.is_healthy && !status.rollback_triggered then
    match status.rollback_reason with
    | some _ =>
        let result := trigger_rollback now cfg g
        (status, result.1, result.2.1)
    | none => (status, cfg, g)
  else (status, cfg, g)

/- Mirror middleware, from src/src/middleware/mirror.rs.  The handler models
   next.run; the outcome parameter is the network result of the detached
   mirror send, which only ever touches MIRROR_METRICS. -/

structure HttpRequest where
  method : String
  path_and_query : String
  headers : List (String × String)
deriving DecidableEq

structure HttpResponse where
  status : ℕ
  headers : List (String × String)
  body : String
deriving DecidableEq

structure MirrorMetrics where
  requests_total : ℕ
  failures_total : ℕ
  latency_observations : ℕ
deriving DecidableEq

inductive MirrorOutcome where
  | completed (status : ℕ)
  | transportFailure
deriving DecidableEq

/- The match on mirror_request.send() inside the spawned task
   (lines 54-81). -/
def record_mirror_outcome (mm : MirrorMetrics) (outcome : MirrorOutcome) : MirrorMetrics :=
  match outcome with
  | MirrorOutcome.completed _ =>
      { mm with requests_total := mm.requests_total + 1,
                latency_observations := mm.latency_observations + 1 }
  | MirrorOutcome.transportFailure =>
      { mm with failures_total := mm.failures_total + 1 }

/- mirror_middleware (lines 13-85): when mirroring is disabled it just runs
   the downstream handler; when enabled it runs the handler, spawns the
   mirror send, and returns the handler response untouched. -/
def mirror_middleware (cfg : MirrorConfig) (handler : HttpRequest → HttpResponse)
    (request : HttpRequest) (outcome : MirrorOutcome) (mm : MirrorMetrics) :
    HttpResponse × MirrorMetrics :=
  if !cfg.enabled then
    (handler request, mm)
  else
    (handler request, record_mirror_outcome mm outcome)

/- Concrete inputs used by witnesses and counterexamples. -/

/- The synthetic window [10, 20, ..., 1000] of 100 samples from the spec. -/
def window100 : List ℚ :=
  (List.range 100).map (fun i => ((10 * (i + 1) : ℕ) : ℚ))

/- The same window, spelled out, for rational-arithmetic evaluation. -/
def window100_explicit : List ℚ :=
  [10, 20, 30, 40, 50, 60, 70, 80, 90, 100,
   110, 120, 130, 140, 150, 160, 170, 180, 190, 200,
   210, 220, 230, 240, 250, 260, 270, 280, 290, 300,
   310, 320, 330, 340, 350, 360, 370, 380, 390, 400,
   410, 420, 430, 440, 450, 460, 470, 480, 490, 500,
   510, 520, 530, 540, 550, 560, 570, 580, 590, 600,
   610, 620, 630, 640, 650, 660, 670, 680, 690, 700,
   710, 720, 730, 740, 750, 760, 770, 780, 790, 800,
   810, 820, 830, 840, 850, 860, 870, 880, 890, 900,
   910, 920, 930, 940, 950, 960, 970, 980, 990, 1000]

def cfg_canary_base : CanaryRolloutConfig :=
  { enabled := true, rollout_percentage := 50, step := 10, max_errors := 1,
    monitor_latency_p99 := true, monitor_memory_cpu := true,
    trigger_header := "x-canary", success_window_seconds := 300,
    legacy_gateway_url := "http://legacy.internal", webhook_url := "http://hooks.internal/alert" }

def cfg_canary_zero : CanaryRolloutConfig :=
  { cfg_canary_base with rollout_percentage := 0 }

def cfg_canary_full : CanaryRolloutConfig :=
  { cfg_canary_base with rollout_percentage := 100 }

def validation_degraded : PerformanceValidation :=
  { latency_improvement_percent := -50, memory_improvement_percent := 0,
    cpu_improvement_percent := 0, error_rate_rust := 5, error_rate_legacy := 1,
    meets_latency_target := false, meets_resource_target := false,
    meets_error_target := false, overall_success := false }

def metrics_with_p99 (p : ℚ) : PerformanceMetrics :=
  { p99_latency_ms := p, p95_latency_ms := p, p50_latency_ms := p,
    avg_latency_ms := p, request_count := 10, error_rate := 0,
    cpu_usage_percent := 15, memory_usage_mb := 128, timestamp := 0 }

def mirror_cfg_enabled : MirrorConfig :=
  { enabled := true, base_url := "http://mirror.internal", timeout_ms := 5000,
    retry_failed := false, max_retries := 0 }

def mirror_metrics_zero : MirrorMetrics :=
  { requests_total := 0, failures_total := 0, latency_observations := 0 }

def sample_request : HttpRequest :=
  { method := "GET", path_and_query := "/api/users", headers := [("accept", "application/json")] }

def sample_handler : HttpRequest → HttpResponse :=
  fun _ => { status := 200, headers := [("content-type", "application/json")], body := "ok" }

/- Helper lemmas. -/

theorem push_bounded_length (l : List ℚ) (x : ℚ) :
    (push_bounded l x).length = min (l.length + 1) 1000 := by
  simp only [push_bounded]
  split
  next h =>
    simp only [List.length_drop, List.length_append, List.length_singleton] at h ⊢
    omega
  next h =>
    simp only [List.length_append, List.length_singleton] at h ⊢
    omega

theorem push_bounded_append (l : List ℚ) (x : ℚ) (h : l.length < 1000) :
    push_bounded l x = l ++ [x] := by
  have hc : ¬ ((l ++ [x]).length > 1000) := by
    simp only [List.length_append, List.length_singleton]
    omega
  simp only [push_bounded, if_neg hc]

theorem push_bounded_evict (l : List ℚ) (x : ℚ) (h : l.length = 1000) :
    push_bounded l x = l.tail ++ [x] := by
  have hc : (l ++ [x]).length > 1000 := by
    simp only [List.length_append, List.length_singleton]
    omega
  simp only [push_bounded, if_pos hc, List.length_append, List.length_singleton, h]
  norm_num
  cases l with
  | nil => simp at h
  | cons a as => simp

theorem insertSorted_length (x : ℚ) (l : List ℚ) :
    (insertSorted x l).length = l.length + 1 := by
  induction l with
  | nil => rfl
  | cons y ys ih =>
    simp only [insertSorted]
    split
    · simp
    · simp [ih]

theorem sortLatencies_length (l : List ℚ) :
    (sortLatencies l).length = l.length := by
  induction l with
  | nil => rfl
  | cons x xs ih => simp [sortLatencies, insertSorted_length, ih]

theorem insertSorted_sum (x : ℚ) (l : List ℚ) :
    (insertSorted x l).sum = x + l.sum := by
  induction l with
  | nil => simp [insertSorted]
  | cons y ys ih =>
    simp only [insertSorted]
    split
    · simp
    · simp [ih]
      ring

theorem sortLatencies_sum (l : List ℚ) :
    (sortLatencies l).sum = l.sum := by
  induction l with
  | nil => rfl
  | cons x xs ih => simp [sortLatencies, insertSorted_sum, ih]

/- Claim theorems. -/

/-- C4: Config reload is atomic and failure-preserving: a failed re-load of
    the configuration file leaves the stored snapshot unchanged and every
    subsequent read returns the prior valid snapshot; a successful re-load
    replaces the snapshot wholesale so every subsequent read observes the
    new configuration in full, never a mix of old and new fields. -/
theorem config_reload_atomicity (s c : AppConfig) (e : ConfigError)
    (events : List (Except ConfigError AppConfig)) :
    get_config (replay_reloads s (events ++ [Except.error e]))
      = get_config (replay_reloads s events)
    ∧ get_config (replay_reloads s (events ++ [Except.ok c])) = c
    ∧ (replay_reloads s (events ++ [Except.ok c])).server = c.server
    ∧ (replay_reloads s (events ++ [Except.ok c])).metrics = c.metrics
    ∧ (replay_reloads s (events ++ [Except.ok c])).tracing = c.tracing
    ∧ (replay_reloads s (events ++ [Except.ok c])).mirror = c.mirror
    ∧ (replay_reloads s (events ++ [Except.ok c])).canary_rollout = c.canary_rollout
    ∧ (replay_reloads s (events ++ [Except.ok c])).routes = c.routes := by
  simp [replay_reloads, List.foldl_append, apply_reload, get_config]

/-- C10: for every backend identity other than "rust" and "legacy",
    record_request leaves the whole monitor state unchanged and
    get_current_metrics returns none. -/
theorem record_request_unknown_backend (m : MonitorState) (b : String) (lat : ℚ)
    (e : Bool) (ts : ℕ) (hb1 : b ≠ "rust") (hb2 : b ≠ "legacy") :
    record_request m b lat e = m ∧ get_current_metrics m b ts = none := by
  constructor
  · simp [record_request, hb1, hb2]
  · simp [get_current_metrics, hb1, hb2]

/-- C10 witness: the backend name "python" is silently ignored. -/
theorem record_request_unknown_backend_witness :
    record_request monitor_new "python" 5 true = monitor_new
    ∧ get_current_metrics monitor_new "python" 0 = none :=
  record_request_unknown_backend monitor_new "python" 5 true 0 (by decide) (by decide)

/-- C2: evaluation of trigger_rollback at rollout_percentage 50 with step 10.
    It records the rollback timestamp, computes max(50 - 10, 1) = 40, attempts
    the webhook, but returns the configuration unchanged at 50: the reduced
    percentage is never applied to the rollout configuration. -/
theorem trigger_rollback_computes_but_does_not_apply :
    (trigger_rollback 7 cfg_canary_base gatekeeper_new).2.1.last_rollback = some 7
    ∧ (trigger_rollback 7 cfg_canary_base gatekeeper_new).2.2.logged_from = 50
    ∧ (trigger_rollback 7 cfg_canary_base gatekeeper_new).2.2.logged_to = 40
    ∧ (trigger_rollback 7 cfg_canary_base gatekeeper_new).2.2.webhook_attempted = true
    ∧ (trigger_rollback 7 cfg_canary_base gatekeeper_new).1 = cfg_canary_base
    ∧ (trigger_rollback 7 cfg_canary_base gatekeeper_new).1.rollout_percentage = 50
    ∧ (trigger_rollback 7 cfg_canary_zero gatekeeper_new).2.2.logged_to = 1 := by
  refine ⟨rfl, rfl, ?_, by decide, rfl, rfl, ?_⟩
  · show max (cfg_canary_base.rollout_percentage - cfg_canary_base.step) 1 = 40
    norm_num [cfg_canary_base, max_def]
  · show max (cfg_canary_zero.rollout_percentage - cfg_canary_zero.step) 1 = 1
    norm_num [cfg_canary_zero, cfg_canary_base, max_def]

/-- C8: evaluation of advance_rollout.  At percentage 50 with step 10 it
    computes min(50 + 10, 100) = 60 and logs it, but returns the configuration
    unchanged at 50; at percentage 100 the computed value stays 100 and the
    advancing branch is not taken. -/
theorem advance_rollout_computes_but_does_not_apply :
    (advance_rollout cfg_canary_base).2.logged_to = 60
    ∧ (advance_rollout cfg_canary_base).1 = cfg_canary_base
    ∧ (advance_rollout cfg_canary_base).1.rollout_percentage = 50
    ∧ (advance_rollout cfg_canary_full).2.logged_to = 100
    ∧ (advance_rollout cfg_canary_full).2.advanced = false
    ∧ (advance_rollout cfg_canary_full).1.rollout_percentage = 100 := by
  refine ⟨?_, rfl, rfl, ?_, ?_, rfl⟩
  · show min (cfg_canary_base.rollout_percentage + cfg_canary_base.step) 100 = 60
    norm_num [cfg_canary_base, min_def]
  · show min (cfg_canary_full.rollout_percentage + cfg_canary_full.step) 100 = 100
    norm_num [cfg_canary_full, cfg_canary_base, min_def]
  · show (if min (cfg_canary_full.rollout_percentage + cfg_canary_full.step) 100
        > cfg_canary_full.rollout_percentage then true else false) = false
    norm_num [cfg_canary_full, cfg_canary_base, min_def]

/-- C7 counterexample: with legacy p99 = 0 and new (rust) p99 = 5, the
    division legacy/new is not a division by zero and equals 0, yet
    set_baseline records improvement factor 1: the guard tests the numerator
    legacy.p99, not the divisor. -/
theorem set_baseline_zero_legacy_counterexample :
    ((set_baseline monitor_new (metrics_with_p99 5) (metrics_with_p99 0)).baseline.map
        PerformanceBaseline.improvement_factor) = some 1
    ∧ (metrics_with_p99 5).p99_latency_ms ≠ 0
    ∧ (metrics_with_p99 0).p99_latency_ms / (metrics_with_p99 5).p99_latency_ms = 0 := by
  refine ⟨?_, by norm_num [metrics_with_p99], by norm_num [metrics_with_p99]⟩
  simp [set_baseline, metrics_with_p99, monitor_new]

/-- C7 (amended): set_baseline records the factor legacy.p99 / new.p99 when
    legacy.p99 is positive and 1 otherwise — the guard tests legacy.p99, not
    the divisor new.p99, so it agrees with the spec description only when
    additionally new.p99 is nonzero — and it stores both snapshots while
    leaving the rest of the monitor state unchanged. -/
theorem set_baseline_guard_on_legacy (m : MonitorState) (r l : PerformanceMetrics)
    (hl : 0 < l.p99_latency_ms) :
    (set_baseline m r l).baseline = some {
        rust_metrics := r, legacy_metrics := l,
        improvement_factor := l.p99_latency_ms / r.p99_latency_ms }
    ∧ (r.p99_latency_ms ≠ 0 →
        (set_baseline m r l).baseline.map PerformanceBaseline.improvement_factor
          = some (spec_improvement_factor r.p99_latency_ms l.p99_latency_ms))
    ∧ (set_baseline m r l).rust_latencies = m.rust_latencies
    ∧ (set_baseline m r l).legacy_latencies = m.legacy_latencies
    ∧ (set_baseline m r l).rust_requests = m.rust_requests
    ∧ (set_baseline m r l).legacy_requests = m.legacy_requests := by
  refine ⟨?_, ?_, rfl, rfl, rfl, rfl⟩
  · simp [set_baseline, hl]
  · intro hr
    simp [set_baseline, hl, spec_improvement_factor, hr]

/-- C7 witness: with new p99 = 5 and legacy p99 = 7 the recorded baseline
    holds both snapshots and factor 7/5. -/
theorem set_baseline_guard_on_legacy_witness :
    (set_baseline monitor_new (metrics_with_p99 5) (metrics_with_p99 7)).baseline = some {
        rust_metrics := metrics_with_p99 5, legacy_metrics := metrics_with_p99 7,
        improvement_factor := (metrics_with_p99 7).p99_latency_ms / (metrics_with_p99 5).p99_latency_ms } :=
  (set_baseline_guard_on_legacy monitor_new (metrics_with_p99 5) (metrics_with_p99 7)
    (by norm_num [metrics_with_p99])).1

/-- C3: mirroring never affects the primary path: when disabled the middleware
    is a no-op; when enabled the response returned to the caller is exactly
    the downstream handler response (status, headers and body unchanged);
    and on an unreachable mirror target only the mirror-failure counter
    increments. -/
theorem mirror_isolation (cfg : MirrorConfig) (handler : HttpRequest → HttpResponse)
    (request : HttpRequest) (outcome : MirrorOutcome) (mm : MirrorMetrics) :
    (mirror_middleware cfg handler request outcome mm).1 = handler request
    ∧ (mirror_middleware cfg handler request outcome mm).1.status = (handler request).status
    ∧ (mirror_middleware cfg handler request outcome mm).1.headers = (handler request).headers
    ∧ (mirror_middleware cfg handler request outcome mm).1.body = (handler request).body
    ∧ (cfg.enabled = false → mirror_middleware cfg handler request outcome mm = (handler request, mm))
    ∧ (cfg.enabled = true → outcome = MirrorOutcome.transportFailure →
        (mirror_middleware cfg handler request outcome mm).2.failures_total = mm.failures_total + 1
        ∧ (mirror_middleware cfg handler request outcome mm).2.requests_total = mm.requests_total
        ∧ (mirror_middleware cfg handler request outcome mm).2.latency_observations
            = mm.latency_observations) := by
  refine ⟨?_, ?_, ?_, ?_, ?_, ?_⟩
  · cases hc : cfg.enabled <;> simp [mirror_middleware, hc]
  · cases hc : cfg.enabled <;> simp [mirror_middleware, hc]
  · cases hc : cfg.enabled <;> simp [mirror_middleware, hc]
  · cases hc : cfg.enabled <;> simp [mirror_middleware, hc]
  · intro hc
    simp [mirror_middleware, hc]
  · intro hc ho
    subst ho
    simp [mirror_middleware, hc, record_mirror_outcome]

/-- C3 witness: with mirroring enabled and an unreachable mirror target, the
    caller still gets the handler response and only the failure counter
    moves. -/
theorem mirror_isolation_witness :
    (mirror_middleware mirror_cfg_enabled sample_handler sample_request
        MirrorOutcome.transportFailure mirror_metrics_zero).1 = sample_handler sample_request
    ∧ (mirror_middleware mirror_cfg_enabled sample_handler sample_request
        MirrorOutcome.transportFailure mirror_metrics_zero).2.failures_total
        = mirror_metrics_zero.failures_total + 1
    ∧ (mirror_middleware mirror_cfg_enabled sample_handler sample_request
        MirrorOutcome.transportFailure mirror_metrics_zero).2.requests_total
        = mirror_metrics_zero.requests_total := by
  have h := mirror_isolation mirror_cfg_enabled sample_handler sample_request
      MirrorOutcome.transportFailure mirror_metrics_zero
  exact ⟨h.1, (h.2.2.2.2.2 (by decide) rfl).1, (h.2.2.2.2.2 (by decide) rfl).2.1⟩

/-- C1 counterexample: with canary enabled and rollout percentage 0, a request
    whose trigger header is valued "new" is routed to the legacy backend, not
    forced to the new one: the source only recognizes the value "rust". -/
theorem canary_header_new_not_forced :
    routing_decision cfg_canary_zero [("x-canary", "new")] 0 = Backend.legacy
    ∧ Backend.legacy ≠ Backend.rust := by
  decide

/-- C1 (amended): the canary routing decision follows the priority order with
    forcing value "rust" (not "new"): disabled canary always routes to the
    new (rust) backend; a trigger header lowercasing to "rust" forces the new
    backend and to "legacy" forces legacy, regardless of rollout_percentage
    and of the draw; otherwise the request goes to the new backend exactly
    when the draw r in [0,100) satisfies r < rollout_percentage, so with
    percentage 0 every header-less request routes to legacy and with 100
    every header-less request routes to new. -/
theorem canary_routing_priority (cfg : CanaryRolloutConfig)
    (headers : List (String × String)) (v : String) (r : ℚ)
    (hr0 : 0 ≤ r) (hr1 : r < 100) :
    (cfg.enabled = false → routing_decision cfg headers r = Backend.rust)
    ∧ (header_value headers cfg.trigger_header = some v → lower_string v = "rust" →
        routing_decision cfg headers r = Backend.rust)
    ∧ (cfg.enabled = true → header_value headers cfg.trigger_header = some v →
        lower_string v = "legacy" → routing_decision cfg headers r = Backend.legacy)
    ∧ (cfg.enabled = true →
        (∀ w, header_value headers cfg.trigger_header = some w →
          lower_string w ≠ "rust" ∧ lower_string w ≠ "legacy") →
        (routing_decision cfg headers r = Backend.rust ↔ r < cfg.rollout_percentage))
    ∧ (cfg.enabled = true → cfg.rollout_percentage = 0 →
        header_value headers cfg.trigger_header = none →
        routing_decision cfg headers r = Backend.legacy)
    ∧ (cfg.enabled = true → cfg.rollout_percentage = 100 →
        header_value headers cfg.trigger_header = none →
        routing_decision cfg headers r = Backend.rust) := by
  refine ⟨?_, ?_, ?_, ?_, ?_, ?_⟩
  · intro he
    simp [routing_decision, he]
  · intro hv hl
    cases he : cfg.enabled
    · simp [routing_decision, he]
    · simp [routing_decision, he, hv, hl]
  · intro he hv hl
    simp [routing_decision, he, hv, hl]
  · intro he hforce
    cases hv : header_value headers cfg.trigger_header with
    | none =>
      by_cases hlt : r < cfg.rollout_percentage
      · simp [routing_decision, he, hv, hlt]
      · simp [routing_decision, he, hv, hlt]
    | some w =>
      obtain ⟨hw1, hw2⟩ := hforce w hv
      by_cases hlt : r < cfg.rollout_percentage
      · simp [routing_decision, he, hv, hw1, hw2, hlt]
      · simp [routing_decision, he, hv, hw1, hw2, hlt]
  · intro he hp hv
    have : ¬ r < cfg.rollout_percentage := by rw [hp]; exact not_lt.mpr hr0
    simp [routing_decision, he, hv, this]
  · intro he hp hv
    have : r < cfg.rollout_percentage := by rw [hp]; exact hr1
    simp [routing_decision, he, hv, this]

/-- C1 witness: with the canary enabled at percentage 0, a header valued
    "RUST" forces the new backend for the draw r = 0. -/
theorem canary_routing_priority_witness :
    (0:ℚ) ≤ 0 ∧ (0:ℚ) < 100
    ∧ routing_decision cfg_canary_zero [("x-canary", "RUST")] 0 = Backend.rust := by
  have h := canary_routing_priority cfg_canary_zero [("x-canary", "RUST")] "RUST" 0
    (by norm_num) (by norm_num)
  exact ⟨le_refl 0, by norm_num, h.2.1 (by decide) (by decide)⟩

/-- C6: whenever less than 300 seconds have elapsed since the last recorded
    rollback, check_health reports healthy with no rollback reason — whatever
    the error rate and latency degradation are — and the monitoring tick
    triggers no further rollback and leaves the configured rollout percentage
    and the gatekeeper state unchanged. -/
theorem cooldown_suppresses_rollback (cfg : CanaryRolloutConfig)
    (validation : PerformanceValidation) (g : GatekeeperState) (now last : ℚ)
    (hlast : g.last_rollback = some last) (hmono : last ≤ now)
    (hcd : now - last < 300) :
    (check_health cfg validation g now).is_healthy = true
    ∧ (check_health cfg validation g now).rollback_reason = none
    ∧ (check_health cfg validation g now).rollback_triggered = false
    ∧ gatekeeper_tick cfg validation g now
        = (check_health cfg validation g now, cfg, g)
    ∧ (gatekeeper_tick cfg validation g now).2.1.rollout_percentage
        = cfg.rollout_percentage := by
  refine ⟨?_, ?_, ?_, ?_, ?_⟩ <;>
    simp [check_health, gatekeeper_tick, hlast, rollback_cooldown, hcd]

/-- C6 witness: right after a rollback at instant 0, a degraded check at
    instant 10 is reported healthy with no reason and changes nothing. -/
theorem cooldown_suppresses_rollback_witness :
    (check_health cfg_canary_base validation_degraded { last_rollback := some 0 } 10).is_healthy = true
    ∧ (check_health cfg_canary_base validation_degraded { last_rollback := some 0 } 10).rollback_reason = none
    ∧ gatekeeper_tick cfg_canary_base validation_degraded { last_rollback := some 0 } 10
        = (check_health cfg_canary_base validation_degraded { last_rollback := some 0 } 10,
           cfg_canary_base, { last_rollback := some 0 }) := by
  have h := cooldown_suppresses_rollback cfg_canary_base validation_degraded
      { last_rollback := some 0 } 10 0 rfl (by norm_num) (by norm_num)
  exact ⟨h.1, h.2.1, h.2.2.2.1⟩

/-- C9: after every record_request call on a recognized backend, that
    backend latency window has length at most 1000; below the cap the
    sample is appended, at the cap the oldest sample is evicted first; the
    request counter increments by one and the error counter increments
    exactly when is_error holds; the state of the other backend is untouched. -/
theorem record_request_window_invariant (m : MonitorState) (lat : ℚ) (e : Bool) :
    (record_request m "rust" lat e).rust_latencies.length ≤ 1000
    ∧ (record_request m "legacy" lat e).legacy_latencies.length ≤ 1000
    ∧ (m.rust_latencies.length < 1000 →
        (record_request m "rust" lat e).rust_latencies = m.rust_latencies ++ [lat])
    ∧ (m.rust_latencies.length = 1000 →
        (record_request m "rust" lat e).rust_latencies = m.rust_latencies.tail ++ [lat])
    ∧ (record_request m "rust" lat e).rust_requests = m.rust_requests + 1
    ∧ (record_request m "rust" lat e).rust_errors
        = (if e then m.rust_errors + 1 else m.rust_errors)
    ∧ (record_request m "rust" lat e).legacy_latencies = m.legacy_latencies
    ∧ (record_request m "rust" lat e).legacy_requests = m.legacy_requests
    ∧ (record_request m "rust" lat e).legacy_errors = m.legacy_errors
    ∧ (m.legacy_latencies.length < 1000 →
        (record_request m "legacy" lat e).legacy_latencies = m.legacy_latencies ++ [lat])
    ∧ (m.legacy_latencies.length = 1000 →
        (record_request m "legacy" lat e).legacy_latencies = m.legacy_latencies.tail ++ [lat])
    ∧ (record_request m "legacy" lat e).legacy_requests = m.legacy_requests + 1
    ∧ (record_request m "legacy" lat e).legacy_errors
        = (if e then m.legacy_errors + 1 else m.legacy_errors)
    ∧ (record_request m "legacy" lat e).rust_latencies = m.rust_latencies
    ∧ (record_request m "legacy" lat e).rust_requests = m.rust_requests
    ∧ (record_request m "legacy" lat e).rust_errors = m.rust_errors := by
  have hrust : record_request m "rust" lat e =
      { m with rust_latencies := push_bounded m.rust_latencies lat,
               rust_requests := m.rust_requests + 1,
               rust_errors := if e then m.rust_errors + 1 else m.rust_errors } := by
    simp [record_request]
  have hleg : record_request m "legacy" lat e =
      { m with legacy_latencies := push_bounded m.legacy_latencies lat,
               legacy_requests := m.legacy_requests + 1,
               legacy_errors := if e then m.legacy_errors + 1 else m.legacy_errors } := by
    simp [record_request]
  rw [hrust, hleg]
  refine ⟨?_, ?_, ?_, ?_, rfl, rfl, rfl, rfl, rfl, ?_, ?_, rfl, rfl, rfl, rfl, rfl⟩
  · simp [push_bounded_length]
  · simp [push_bounded_length]
  · intro h
    simp [push_bounded_append m.rust_latencies lat h]
  · intro h
    simp [push_bounded_evict m.rust_latencies lat h]
  · intro h
    simp [push_bounded_append m.legacy_latencies lat h]
  · intro h
    simp [push_bounded_evict m.legacy_latencies lat h]

/-- C9 witness: recording into the empty monitor appends the sample and
    bumps the request counter, and the window stays within the cap. -/
theorem record_request_window_invariant_witness :
    (record_request monitor_new "rust" 5 true).rust_latencies
      = monitor_new.rust_latencies ++ [5]
    ∧ (record_request monitor_new "rust" 5 true).rust_requests
      = monitor_new.rust_requests + 1
    ∧ (record_request monitor_new "legacy" 5 true).legacy_latencies.length ≤ 1000 := by
  have h := record_request_window_invariant monitor_new 5 true
  exact ⟨h.2.2.1 (by decide), h.2.2.2.2.1, h.2.1⟩

/-- C5: current-metrics computation returns none exactly when the latency
    window is empty, and otherwise p50/p95/p99 are selected from the sorted
    window at index floor(len * q) clamped to len - 1, together with the mean
    of the window and error_rate = errors / requests * 100. -/
theorem calculate_metrics_matches_spec (lat : List ℚ) (req err ts : ℕ) :
    (calculate_metrics lat req err ts = none ↔ lat = [])
    ∧ (lat ≠ [] →
        calculate_metrics lat req err ts = some {
          p99_latency_ms := (sortLatencies lat).getD (min (lat.length * 99 / 100) (lat.length - 1)) 0,
          p95_latency_ms := (sortLatencies lat).getD (min (lat.length * 95 / 100) (lat.length - 1)) 0,
          p50_latency_ms := (sortLatencies lat).getD (min (lat.length * 50 / 100) (lat.length - 1)) 0,
          avg_latency_ms := lat.sum / (lat.length : ℚ),
          request_count := req,
          error_rate := ((err : ℚ) / (req : ℚ)) * 100,
          cpu_usage_percent := system_cpu_usage,
          memory_usage_mb := system_memory_usage,
          timestamp := ts }) := by
  constructor
  · constructor
    · intro h
      by_contra hne
      have hie : lat.isEmpty = false := by
        cases lat with
        | nil => exact absurd rfl hne
        | cons a as => rfl
      simp [calculate_metrics, hie] at h
    · intro h
      subst h
      simp [calculate_metrics]
  · intro hne
    have hpos : 0 < lat.length := List.length_pos.mpr hne
    have hie : lat.isEmpty = false := by
      cases lat with
      | nil => exact absurd rfl hne
      | cons a as => rfl
    have hlen : (sortLatencies lat).length = lat.length := sortLatencies_length lat
    have h99 : min (lat.length * 99 / 100) (lat.length - 1) = lat.length * 99 / 100 :=
      min_eq_left (by omega)
    have h95 : min (lat.length * 95 / 100) (lat.length - 1) = lat.length * 95 / 100 :=
      min_eq_left (by omega)
    have h50 : min (lat.length * 50 / 100) (lat.length - 1) = lat.length / 2 := by
      have : lat.length * 50 / 100 = lat.length / 2 := by omega
      rw [this]
      exact min_eq_left (by omega)
    have herr : (if req > 0 then ((err : ℚ) / (req : ℚ)) * 100 else 0)
        = ((err : ℚ) / (req : ℚ)) * 100 := by
      by_cases h : req > 0
      · rw [if_pos h]
      · have hz : req = 0 := by omega
        subst hz
        simp
    simp only [calculate_metrics, hie, Bool.false_eq_true, if_false]
    rw [h99, h95, h50, herr, hlen, sortLatencies_sum]

/-- C5 witness: on the synthetic window [10, 20, ..., 1000] of 100 samples,
    p50 is the sorted sample at index 50 (510), p95 at index 95 (960), p99
    at index 99 (1000), the mean is 505 and the error rate is 0 for 100
    requests with 0 errors. -/
theorem calculate_metrics_matches_spec_witness :
    calculate_metrics window100 100 0 0 = some {
      p99_latency_ms := 1000, p95_latency_ms := 960, p50_latency_ms := 510,
      avg_latency_ms := 505, request_count := 100, error_rate := 0,
      cpu_usage_percent := 15, memory_usage_mb := 128, timestamp := 0 } := by
  have h := (calculate_metrics_matches_spec window100 100 0 0).2 (by decide)
  rw [h]
  have h99v : (sortLatencies window100).getD
      (min (window100.length * 99 / 100) (window100.length - 1)) 0 = 1000 := by decide
  have h95v : (sortLatencies window100).getD
      (min (window100.length * 95 / 100) (window100.length - 1)) 0 = 960 := by decide
  have h50v : (sortLatencies window100).getD
      (min (window100.length * 50 / 100) (window100.length - 1)) 0 = 510 := by decide
  have havg : window100.sum / (window100.length : ℚ) = 505 := by
    have hw : window100 = window100_explicit := by decide
    have hl : window100.length = 100 := by decide
    rw [hl, hw]
    simp only [window100_explicit, List.sum_cons, List.sum_nil]
    norm_num
  simp only [Option.some_inj, PerformanceMetrics.mk.injEq, h99v, h95v, h50v, havg]
  norm_num [system_cpu_usage, system_memory_usage]

end Gateway
